import Mathlib

/-!
Verification of the Keithley 2260B serial power-supply driver
(Keithley_2260B_lib.py).

Numeric values carried by commands and replies (Python floats used only for
strict comparisons and string formatting here) are embedded as rationals.
Serial traffic is made explicit: each operation returns the list of command
strings it writes to the transport, and getters additionally report how many
blocking line-reads they perform and the parsed result.
-/

/-- Python str() rendering of a numeric value, as used when command strings
are assembled; the same rendering appears on both sides of every command
equation, so only the concatenation structure matters. -/
def pyStr (q : ℚ) : String := toString q

/-- The capability bounds cached on the object by the constructor
(lines 88-109 of the source): min/max for voltage, current, internal
resistance, over-current and over-voltage protection, and the four slew
rates. -/
structure Caps where
  min_voltage : ℚ
  max_voltage : ℚ
  min_current : ℚ
  max_current : ℚ
  over_current_protection_min : ℚ
  over_current_protection_max : ℚ
  over_voltage_protection_min : ℚ
  over_voltage_protection_max : ℚ
  current_min_rising_slew_rate : ℚ
  current_max_rising_slew_rate : ℚ
  current_min_falling_slew_rate : ℚ
  current_max_falling_slew_rate : ℚ
  voltage_min_rising_slew_rate : ℚ
  voltage_max_rising_slew_rate : ℚ
  voltage_min_falling_slew_rate : ℚ
  voltage_max_falling_slew_rate : ℚ
  internal_resistance_min : ℚ
  internal_resistance_max : ℚ
deriving DecidableEq

/-- Outcome of a set-operation: the command strings transmitted on the
serial transport, and whether a logging.warning was emitted. -/
structure SetOutcome where
  writes : List String
  warned : Bool
deriving DecidableEq

/-- set_voltage (source lines 413-422): strict bounds check against the
cached voltage bounds, then VOLT command. -/
def set_voltage (c : Caps) (voltage_value : ℚ) : SetOutcome :=
  if c.min_voltage < voltage_value ∧ voltage_value < c.max_voltage then
    ⟨["VOLT " ++ pyStr voltage_value], false⟩
  else ⟨[], true⟩

/-- set_current (source lines 294-303). -/
def set_current (c : Caps) (current_value : ℚ) : SetOutcome :=
  if c.min_current < current_value ∧ current_value < c.max_current then
    ⟨["CURR " ++ pyStr current_value], false⟩
  else ⟨[], true⟩

/-- set_internal_resistance (source lines 225-234). -/
def set_internal_resistance (c : Caps) (resistance : ℚ) : SetOutcome :=
  if c.internal_resistance_min < resistance ∧ resistance < c.internal_resistance_max then
    ⟨["RES " ++ pyStr resistance], false⟩
  else ⟨[], true⟩

/-- set_over_current_protection (source lines 321-331). -/
def set_over_current_protection (c : Caps) (ocp : ℚ) : SetOutcome :=
  if c.over_current_protection_min < ocp ∧ ocp < c.over_current_protection_max then
    ⟨["CURR:PROT " ++ pyStr ocp], false⟩
  else ⟨[], true⟩

/-- set_over_voltage_protection (source lines 371-380). The guard at line
377 compares the value against over_current_protection_min on the low side,
exactly as the source does. -/
def set_over_voltage_protection (c : Caps) (ovp : ℚ) : SetOutcome :=
  if c.over_current_protection_min < ovp ∧ ovp < c.over_voltage_protection_max then
    ⟨["VOLT:PROT " ++ pyStr ovp], false⟩
  else ⟨[], true⟩

/-- set_rising_current_slew_rate (source lines 345-354). The guard at line
351 compares the value against current_max_falling_slew_rate on the high
side, exactly as the source does. -/
def set_rising_current_slew_rate (c : Caps) (slew_rate : ℚ) : SetOutcome :=
  if c.current_min_rising_slew_rate < slew_rate ∧ slew_rate < c.current_max_falling_slew_rate then
    ⟨["CURR:SLEW:RIS " ++ pyStr slew_rate], false⟩
  else ⟨[], true⟩

/-- set_falling_current_slew_rate (source lines 392-401). -/
def set_falling_current_slew_rate (c : Caps) (slew_rate : ℚ) : SetOutcome :=
  if c.current_min_falling_slew_rate < slew_rate ∧ slew_rate < c.current_max_falling_slew_rate then
    ⟨["CURR:SLEW:FALL " ++ pyStr slew_rate], false⟩
  else ⟨[], true⟩

/-- set_rising_voltage_slew_rate (source lines 440-450). -/
def set_rising_voltage_slew_rate (c : Caps) (slew_rate : ℚ) : SetOutcome :=
  if c.voltage_min_rising_slew_rate < slew_rate ∧ slew_rate < c.voltage_max_rising_slew_rate then
    ⟨["VOLT:SLEW:RIS " ++ pyStr slew_rate], false⟩
  else ⟨[], true⟩

/-- set_falling_voltage_slew_rate (source lines 465-475). -/
def set_falling_voltage_slew_rate (c : Caps) (slew_rate : ℚ) : SetOutcome :=
  if c.voltage_min_falling_slew_rate < slew_rate ∧ slew_rate < c.voltage_max_falling_slew_rate then
    ⟨["VOLT:SLEW:FALL " ++ pyStr slew_rate], false⟩
  else ⟨[], true⟩

/-- set_voltage_current (source lines 181-194): both strict bound checks in
one condition, a single combined APPL command on success. -/
def set_voltage_current (c : Caps) (voltage current : ℚ) : SetOutcome :=
  if (c.min_voltage < voltage ∧ voltage < c.max_voltage) ∧
      (c.min_current < current ∧ current < c.max_current) then
    ⟨["APPL " ++ pyStr voltage ++ "," ++ pyStr current], false⟩
  else ⟨[], true⟩

/-- set_power_supply_mode (source lines 249-263): membership in the
four-string tuple, OUTP:MODE command on success, warning otherwise. -/
def set_power_supply_mode (ps_mode : String) : SetOutcome :=
  if ps_mode = "CVHS" ∨ ps_mode = "CCHS" ∨ ps_mode = "CVLS" ∨ ps_mode = "CCLS" then
    ⟨["OUTP:MODE " ++ ps_mode], false⟩
  else ⟨[], true⟩

/-- get_power_supply_mode (source lines 265-280): writes the query, maps the
reply character to the mode string, leaving str_mode at its initial ""
for any unrecognized reply. Result: (commands written, returned string). -/
def get_power_supply_mode (reply : String) : List String × String :=
  (["OUTP:MODE?"],
    if reply = "0" then "CVHS"
    else if reply = "1" then "CCHS"
    else if reply = "2" then "CVLS"
    else if reply = "3" then "CCLS"
    else "")

/-- Numeric value of a list of decimal digit characters. -/
def digitsToNat (cs : List Char) : Nat :=
  cs.foldl (fun a c => a * 10 + (c.toNat - 48)) 0

/-- A nonempty all-digit block. -/
def parseDigits (cs : List Char) : Option Nat :=
  if cs ≠ [] ∧ cs.all Char.isDigit then some (digitsToNat cs) else none

/-- The mantissa accepted by Python float(): decimal digits with an optional
decimal point and at least one digit overall ("12", "12.", "12.5", ".5"). -/
def parseMantissa (cs : List Char) : Option ℚ :=
  match cs.span (fun c => c != '.') with
  | (ip, []) => (parseDigits ip).map (fun n => (n : ℚ))
  | (ip, _ :: fp) =>
      if (ip ≠ [] ∨ fp ≠ []) ∧ ip.all Char.isDigit ∧ fp.all Char.isDigit then
        some ((digitsToNat ip : ℚ) + (digitsToNat fp : ℚ) / (10 : ℚ) ^ fp.length)
      else none

/-- The exponent accepted by Python float(): optional sign, then a nonempty
digit block. -/
def parseExp (cs : List Char) : Option Int :=
  match cs with
  | '+' :: t => (parseDigits t).map (fun n => (n : Int))
  | '-' :: t => (parseDigits t).map (fun n => -(n : Int))
  | t => (parseDigits t).map (fun n => (n : Int))

/-- Scaling by a signed power of ten. -/
def scaleByExp (m : ℚ) (e : Int) : ℚ :=
  if 0 ≤ e then m * (10 : ℚ) ^ e.toNat else m / (10 : ℚ) ^ (-e).toNat

/-- Model of Python float(s) on the already-stripped reply line: optional
sign, decimal mantissa, optional e/E exponent. none where float() raises
ValueError. -/
def parseFloat (s : String) : Option ℚ :=
  let signed : ℚ × List Char :=
    match s.toList with
    | '+' :: t => (1, t)
    | '-' :: t => (-1, t)
    | t => (1, t)
  match signed.2.span (fun c => c != 'e' && c != 'E') with
  | (mant, []) => (parseMantissa mant).map (fun m => signed.1 * m)
  | (mant, _ :: ex) =>
      match parseMantissa mant, parseExp ex with
      | some m, some e => some (signed.1 * scaleByExp m e)
      | _, _ => none

/-- The error taxonomy piece relevant to getters: a reply that could not be
interpreted as a number (Python ValueError from float()). -/
inductive KError where
  | parseError (raw : String)
deriving DecidableEq

/-- Outcome of a get-operation: commands transmitted, number of blocking
line-reads performed, and the parsed result or a propagated error. -/
structure GetOutcome where
  writes : List String
  reads : Nat
  result : Except KError ℚ

/-- float(self.read()) : the reply parsed as a number, the parse failure
propagated unchanged otherwise. -/
def floatOfReply (r : String) : Except KError ℚ :=
  match parseFloat r with
  | some q => Except.ok q
  | none => Except.error (KError.parseError r)

/-- get_voltage (source lines 424-438): the three recognized branches write a
query, any other min_max writes nothing; one blocking read and a float parse
happen unconditionally. -/
def get_voltage (min_max : Option String) (reply : String) : GetOutcome :=
  ⟨if min_max = none then ["VOLT?"]
    else if min_max = some "MAX" then ["VOLT? MAX"]
    else if min_max = some "MIN" then ["VOLT? MIN"]
    else [],
   1, floatOfReply reply⟩

/-- get_internal_resistance (source lines 236-247): same pattern, branch
order None / MIN / MAX as in the source. -/
def get_internal_resistance (min_max : Option String) (reply : String) : GetOutcome :=
  ⟨if min_max = none then ["RES?"]
    else if min_max = some "MIN" then ["RES? MIN"]
    else if min_max = some "MAX" then ["RES? MAX"]
    else [],
   1, floatOfReply reply⟩

/-- The sampler-related state of the object: the stop flag (line 116) and the
three sample series (lines 121-123). -/
structure SamplerState where
  reading_thread_active : Bool
  data_voltage : List ℚ
  data_current : List ℚ
  data_power : List ℚ
deriving DecidableEq

/-- The state as the constructor leaves it: flag cleared, empty series. -/
def initSampler : SamplerState := ⟨false, [], [], []⟩

/-- start_thread_power_supply_data (source lines 495-501): raises the flag
and starts the thread; the three series are left untouched. -/
def start_thread_power_supply_data (s : SamplerState) : SamplerState :=
  ⟨true, s.data_voltage, s.data_current, s.data_power⟩

/-- stop_thread_power_supply_data (source lines 503-509), state part: clears
the flag. -/
def stop_thread_power_supply_data (s : SamplerState) : SamplerState :=
  ⟨false, s.data_voltage, s.data_current, s.data_power⟩

/-- One iteration of the loop body of _read_power_supply_data (source lines
515-525): the three measured values are appended to the three series. -/
def readIteration (s : SamplerState) (v i p : ℚ) : SamplerState :=
  ⟨s.reading_thread_active,
   s.data_voltage ++ [v], s.data_current ++ [i], s.data_power ++ [p]⟩

/-- A sampling run: one readIteration per measured (v, i, p) triple. -/
def runSamples : SamplerState → List (ℚ × ℚ × ℚ) → SamplerState
  | s, [] => s
  | s, t :: ts => runSamples (readIteration s t.1 t.2.1 t.2.2) ts

/-- The delimited text file written by np.savetxt in save_data: a name, a
delimiter, rows of numbers, and no header line. -/
structure CsvFile where
  filename : String
  delimiter : String
  rows : List (List ℚ)
  header : Option String
deriving DecidableEq

/-- save_data (source lines 527-537): the three series serialized in the
order voltage, current, power, comma-delimited, fixed file name, no header. -/
def save_data (s : SamplerState) : CsvFile :=
  ⟨"PS_data.csv", ",", [s.data_voltage, s.data_current, s.data_power], none⟩

/-- Observable events of the sampler's control flow. -/
inductive Ev where
  | write (cmd : String)
  | readLine
  | appendSample (series : String)
  | acquire
  | release
  | sleep (seconds : ℚ)
  | setFlag (b : Bool)
  | joinThread
  | save (f : CsvFile)
deriving DecidableEq

/-- One full iteration of the while-loop of _read_power_supply_data (source
lines 515-525): acquire, three measurement round trips each followed by its
append, release, then the 0.05 s delay. -/
def readIterationTrace : List Ev :=
  [Ev.acquire,
   Ev.write "MEAS:VOLT?", Ev.readLine, Ev.appendSample "voltage",
   Ev.write "MEAS:CURR?", Ev.readLine, Ev.appendSample "current",
   Ev.write "MEAS:POW?", Ev.readLine, Ev.appendSample "power",
   Ev.release,
   Ev.sleep (1/20)]

/-- stop_thread_power_supply_data as a trace (source lines 503-509): clear
the flag, sleep 0.1 s, join the thread. -/
def stopThreadTrace : List Ev :=
  [Ev.setFlag false, Ev.sleep (1/10), Ev.joinThread]

/-- stop_power_supply as a trace (source lines 547-554): output off, sleep
0.2 s, the stop-thread sequence, then one save of the collected series. -/
def stopPowerSupplyTrace (s : SamplerState) : List Ev :=
  [Ev.write "OUTP 0", Ev.sleep (1/5)] ++ stopThreadTrace ++ [Ev.save (save_data s)]

/-- The event persists data to a file. -/
def Ev.isSave : Ev → Bool
  | Ev.save _ => true
  | _ => false

/-- The event is the loop-exit signal (the run flag set to False). -/
def Ev.isStopSignal : Ev → Bool
  | Ev.setFlag b => !b
  | _ => false

/-- The event joins the background thread. -/
def Ev.isJoin : Ev → Bool
  | Ev.joinThread => true
  | _ => false

/-- The event is a sleep. -/
def Ev.isSleep : Ev → Bool
  | Ev.sleep _ => true
  | _ => false

/-- The event acquires the shared lock. -/
def Ev.isAcquire : Ev → Bool
  | Ev.acquire => true
  | _ => false

/-- The event releases the shared lock. -/
def Ev.isRelease : Ev → Bool
  | Ev.release => true
  | _ => false

/-- The event belongs to a measurement round trip or is one of the appends:
a MEAS query write, the blocking read of its reply, or an append. -/
def Ev.isMeasurePart : Ev → Bool
  | Ev.write c => c == "MEAS:VOLT?" || c == "MEAS:CURR?" || c == "MEAS:POW?"
  | Ev.readLine => true
  | Ev.appendSample _ => true
  | _ => false

/-- The lock is held while event number j of tr executes: strictly more
acquires than releases among the first j events. -/
abbrev lockHeldAt (tr : List Ev) (j : Nat) : Prop :=
  (tr.take j).countP Ev.isRelease < (tr.take j).countP Ev.isAcquire

/-- A concrete rating table used to exercise the setters: voltage (0, 36),
current (0, 108), over-current protection (2, 120), over-voltage protection
(1, 33), current slew rising (1/100, 216) and falling (1/100, 10), voltage
slew rising and falling (1/100, 60), internal resistance (0, 1). -/
def capsDemo : Caps :=
  ⟨0, 36, 0, 108, 2, 120, 1, 33, 1/100, 216, 1/100, 10, 1/100, 60, 1/100, 60, 0, 1⟩

/-- C1: the spec asserts every setter checks its value against the bounds
cached for that same parameter. The code contradicts this at two places: with
the rating table capsDemo, 50 lies strictly between the cached rising-current
slew-rate bounds yet set_rising_current_slew_rate transmits nothing (the
guard at source line 351 uses the falling-current maximum), and 3/2 lies
strictly between the cached over-voltage protection bounds yet
set_over_voltage_protection transmits nothing (the guard at source line 377
uses the over-current protection minimum). -/
theorem c1_setter_checks_wrong_parameter_bounds :
    (capsDemo.current_min_rising_slew_rate < 50 ∧
      (50 : ℚ) < capsDemo.current_max_rising_slew_rate ∧
      set_rising_current_slew_rate capsDemo 50 = ⟨[], true⟩) ∧
    (capsDemo.over_voltage_protection_min < 3/2 ∧
      (3/2 : ℚ) < capsDemo.over_voltage_protection_max ∧
      set_over_voltage_protection capsDemo (3/2) = ⟨[], true⟩) := by
  refine ⟨⟨?_, ?_, ?_⟩, ?_, ?_, ?_⟩ <;>
    norm_num [set_rising_current_slew_rate, set_over_voltage_protection, capsDemo]

/-- C2 counterexample: start the sampler, take the sample (1, 2, 3), stop,
start again, take the sample (4, 5, 6): the voltage series is [1, 4], not
the new run's [4] alone, so series are not cleared at the start of a run. -/
theorem c2_second_run_keeps_old_samples :
    (readIteration (start_thread_power_supply_data (stop_thread_power_supply_data
        (readIteration (start_thread_power_supply_data initSampler) 1 2 3))) 4 5 6).data_voltage
      = [1, 4] ∧ ([1, 4] : List ℚ) ≠ [4] := by
  refine ⟨rfl, fun h => ?_⟩
  have hl := congrArg List.length h
  norm_num at hl

/-- Effect of a whole run on the three series: each sample's components are
appended in order, and the flag is what it was. -/
theorem runSamples_series (s : SamplerState) (xs : List (ℚ × ℚ × ℚ)) :
    (runSamples s xs).data_voltage = s.data_voltage ++ xs.map (fun t => t.1) ∧
    (runSamples s xs).data_current = s.data_current ++ xs.map (fun t => t.2.1) ∧
    (runSamples s xs).data_power = s.data_power ++ xs.map (fun t => t.2.2) := by
  induction xs generalizing s with
  | nil => simp [runSamples]
  | cons hd tl ih =>
      obtain ⟨h1, h2, h3⟩ := ih (readIteration s hd.1 hd.2.1 hd.2.2)
      simp [readIteration] at h1 h2 h3
      refine ⟨?_, ?_, ?_⟩ <;>
        simp [runSamples, readIteration, h1, h2, h3]

/-- start_thread_power_supply_data leaves the three series untouched. -/
theorem start_thread_series (s : SamplerState) :
    (start_thread_power_supply_data s).data_voltage = s.data_voltage ∧
    (start_thread_power_supply_data s).data_current = s.data_current ∧
    (start_thread_power_supply_data s).data_power = s.data_power := ⟨rfl, rfl, rfl⟩

/-- stop_thread_power_supply_data leaves the three series untouched. -/
theorem stop_thread_series (s : SamplerState) :
    (stop_thread_power_supply_data s).data_voltage = s.data_voltage ∧
    (stop_thread_power_supply_data s).data_current = s.data_current ∧
    (stop_thread_power_supply_data s).data_power = s.data_power := ⟨rfl, rfl, rfl⟩

/-- C2 (amended): the three series are append-only, but they are initialized
empty only once, at construction, and never cleared when a run starts: after
a base state s, a run with samples xs, a stop, and a second run with samples
ys, each series is the base series followed by the first run's samples
followed by the second run's samples. -/
theorem c2_series_accumulate_across_runs (s : SamplerState) (xs ys : List (ℚ × ℚ × ℚ)) :
    (runSamples (start_thread_power_supply_data (stop_thread_power_supply_data
        (runSamples (start_thread_power_supply_data s) xs))) ys).data_voltage
      = s.data_voltage ++ xs.map (fun t => t.1) ++ ys.map (fun t => t.1) ∧
    (runSamples (start_thread_power_supply_data (stop_thread_power_supply_data
        (runSamples (start_thread_power_supply_data s) xs))) ys).data_current
      = s.data_current ++ xs.map (fun t => t.2.1) ++ ys.map (fun t => t.2.1) ∧
    (runSamples (start_thread_power_supply_data (stop_thread_power_supply_data
        (runSamples (start_thread_power_supply_data s) xs))) ys).data_power
      = s.data_power ++ xs.map (fun t => t.2.2) ++ ys.map (fun t => t.2.2) := by
  obtain ⟨a1, a2, a3⟩ := runSamples_series (start_thread_power_supply_data s) xs
  obtain ⟨b1, b2, b3⟩ := runSamples_series (start_thread_power_supply_data
    (stop_thread_power_supply_data (runSamples (start_thread_power_supply_data s) xs))) ys
  obtain ⟨p1, p2, p3⟩ := start_thread_series s
  obtain ⟨q1, q2, q3⟩ := start_thread_series
    (stop_thread_power_supply_data (runSamples (start_thread_power_supply_data s) xs))
  obtain ⟨r1, r2, r3⟩ := stop_thread_series (runSamples (start_thread_power_supply_data s) xs)
  exact ⟨by rw [b1, q1, r1, a1, p1], by rw [b2, q2, r2, a2, p2], by rw [b3, q3, r3, a3, p3]⟩

/-- C3: set_voltage_current transmits the single combined APPL command iff
the voltage strictly satisfies the cached voltage bounds and the current
strictly satisfies the cached current bounds; when either check fails nothing
is transmitted and a warning is emitted. -/
theorem c3_set_voltage_current_guard (c : Caps) (v i : ℚ) :
    ((set_voltage_current c v i).writes = ["APPL " ++ pyStr v ++ "," ++ pyStr i]
        ↔ ((c.min_voltage < v ∧ v < c.max_voltage) ∧ (c.min_current < i ∧ i < c.max_current))) ∧
    (¬ ((c.min_voltage < v ∧ v < c.max_voltage) ∧ (c.min_current < i ∧ i < c.max_current)) →
      set_voltage_current c v i = ⟨[], true⟩) := by
  unfold set_voltage_current
  split_ifs with h <;> simp [h]

/-- C4: set_power_supply_mode transmits OUTP:MODE followed by the argument
iff the argument is one of the four mode strings; for any other string
nothing is transmitted and a warning is emitted (the operation is total:
no exception). -/
theorem c4_set_mode_guard (m : String) :
    ((set_power_supply_mode m).writes = ["OUTP:MODE " ++ m]
        ↔ (m = "CVHS" ∨ m = "CCHS" ∨ m = "CVLS" ∨ m = "CCLS")) ∧
    (¬ (m = "CVHS" ∨ m = "CCHS" ∨ m = "CVLS" ∨ m = "CCLS") →
      set_power_supply_mode m = ⟨[], true⟩) := by
  unfold set_power_supply_mode
  split_ifs with h <;> simp [h]

/-- C5: get_power_supply_mode maps the reply 0 to CVHS, 1 to CCHS, 2 to
CVLS, 3 to CCLS, and every other reply to the empty string, without raising
(the mapping is a total function). -/
theorem c5_get_mode_mapping :
    (get_power_supply_mode "0").2 = "CVHS" ∧
    (get_power_supply_mode "1").2 = "CCHS" ∧
    (get_power_supply_mode "2").2 = "CVLS" ∧
    (get_power_supply_mode "3").2 = "CCLS" ∧
    ∀ r : String, r ≠ "0" → r ≠ "1" → r ≠ "2" → r ≠ "3" →
      (get_power_supply_mode r).2 = "" := by
  refine ⟨rfl, rfl, rfl, rfl, fun r h0 h1 h2 h3 => ?_⟩
  simp [get_power_supply_mode, h0, h1, h2, h3]

/-- C6: on stop, the trace clears the run flag, sleeps a bounded grace
period, joins the background thread, and only after the join persists the
series; exactly one save occurs, and the saved file is PS_data.csv,
comma-delimited, rows in the order voltage, current, power, no header. -/
theorem c6_stop_sequence_saves_once (s : SamplerState) :
    (stopPowerSupplyTrace s).countP Ev.isSave = 1 ∧
    (stopPowerSupplyTrace s).findIdx Ev.isStopSignal
        < (stopPowerSupplyTrace s).findIdx Ev.isJoin ∧
    (stopPowerSupplyTrace s)[(stopPowerSupplyTrace s).findIdx Ev.isStopSignal + 1]?
        = some (Ev.sleep (1/10)) ∧
    (stopPowerSupplyTrace s).findIdx Ev.isJoin
        < (stopPowerSupplyTrace s).findIdx Ev.isSave ∧
    (stopPowerSupplyTrace s)[(stopPowerSupplyTrace s).findIdx Ev.isSave]?
        = some (Ev.save ⟨"PS_data.csv", ",",
            [s.data_voltage, s.data_current, s.data_power], none⟩) := by
  refine ⟨rfl, ?_, rfl, ?_, rfl⟩
  · show (2 : Nat) < 4
    decide
  · show (4 : Nat) < 5
    decide

/-- C7: for a get-operation called with bound argument none, MIN or MAX, the
single reply line is parsed as a number and returned; when the reply does
not parse, a ParseError carrying that reply is the operation's result,
propagated unchanged. Shown for get_voltage and get_internal_resistance. -/
theorem c7_get_parses_reply (mm : Option String) (r : String) (q : ℚ)
    (_hmm : mm = none ∨ mm = some "MIN" ∨ mm = some "MAX") :
    (parseFloat r = some q →
      (get_voltage mm r).result = Except.ok q ∧
      (get_internal_resistance mm r).result = Except.ok q) ∧
    (parseFloat r = none →
      (get_voltage mm r).result = Except.error (KError.parseError r) ∧
      (get_internal_resistance mm r).result = Except.error (KError.parseError r)) := by
  constructor
  · intro hp
    exact ⟨by simp [get_voltage, floatOfReply, hp],
      by simp [get_internal_resistance, floatOfReply, hp]⟩
  · intro hp
    exact ⟨by simp [get_voltage, floatOfReply, hp],
      by simp [get_internal_resistance, floatOfReply, hp]⟩

/-- C7 witness: with the MAX bound and the reply 30.0 get_voltage returns the
parsed 30; with no bound and an unparseable reply get_internal_resistance
returns the ParseError carrying that reply. -/
theorem c7_get_parses_reply_witness :
    (get_voltage (some "MAX") "30.0").result = Except.ok (30 : ℚ) ∧
    (get_internal_resistance none "ERR").result
      = Except.error (KError.parseError "ERR") := by
  have h1 : parseFloat "30.0"
      = some ((1 : ℚ) * (((30 : ℕ) : ℚ) + ((0 : ℕ) : ℚ) / (10 : ℚ) ^ (1 : ℕ))) := rfl
  have h2 : parseFloat "30.0" = some (30 : ℚ) := by rw [h1]; norm_num
  exact ⟨((c7_get_parses_reply (some "MAX") "30.0" 30 (Or.inr (Or.inr rfl))).1 h2).1,
    ((c7_get_parses_reply none "ERR" 30 (Or.inl rfl)).2 rfl).2⟩

/-- C8: within one loop iteration the lock is acquired before the first
measurement command; every measurement write, reply read and append happens
with the lock held; the release comes before the inter-sample sleep; and no
sleep event executes with the lock held. -/
theorem c8_lock_scope_in_iteration :
    readIterationTrace.findIdx Ev.isAcquire
        < readIterationTrace.findIdx Ev.isMeasurePart ∧
    (∀ j, j < readIterationTrace.length →
        Ev.isMeasurePart (readIterationTrace.getD j Ev.acquire) = true →
        lockHeldAt readIterationTrace j) ∧
    readIterationTrace.findIdx Ev.isRelease < readIterationTrace.findIdx Ev.isSleep ∧
    (∀ j, j < readIterationTrace.length →
        Ev.isSleep (readIterationTrace.getD j Ev.acquire) = true →
        ¬ lockHeldAt readIterationTrace j) := by
  decide

/-- C9: a get-operation called with a bound argument other than None, MIN or
MAX (for example lowercase min) writes nothing to the transport, but still
performs its one blocking line-read and parses the reply as a float. Shown
for get_voltage and get_internal_resistance. -/
theorem c9_unrecognized_bound_still_reads (mm : Option String) (r : String)
    (h0 : mm ≠ none) (h1 : mm ≠ some "MIN") (h2 : mm ≠ some "MAX") :
    (get_voltage mm r).writes = [] ∧ (get_voltage mm r).reads = 1 ∧
    (get_voltage mm r).result = floatOfReply r ∧
    (get_internal_resistance mm r).writes = [] ∧
    (get_internal_resistance mm r).reads = 1 ∧
    (get_internal_resistance mm r).result = floatOfReply r := by
  refine ⟨?_, rfl, rfl, ?_, rfl, rfl⟩ <;>
    simp [get_voltage, get_internal_resistance, h0, h1, h2]

/-- C9 witness: bound argument lowercase min, reply 7. -/
theorem c9_unrecognized_bound_still_reads_witness :
    (get_voltage (some "min") "7").writes = [] ∧
    (get_voltage (some "min") "7").reads = 1 ∧
    (get_voltage (some "min") "7").result = floatOfReply "7" ∧
    (get_internal_resistance (some "min") "7").writes = [] ∧
    (get_internal_resistance (some "min") "7").reads = 1 ∧
    (get_internal_resistance (some "min") "7").result = floatOfReply "7" :=
  c9_unrecognized_bound_still_reads (some "min") "7" (by decide) (by decide) (by decide)

/-- C10: a complete loop iteration appends exactly one element to each of
the three series, so equal lengths are preserved across iterations. -/
theorem c10_iteration_appends_one_each (s : SamplerState) (v i p : ℚ)
    (h1 : s.data_voltage.length = s.data_current.length)
    (h2 : s.data_current.length = s.data_power.length) :
    (readIteration s v i p).data_voltage.length = s.data_voltage.length + 1 ∧
    (readIteration s v i p).data_current.length = s.data_current.length + 1 ∧
    (readIteration s v i p).data_power.length = s.data_power.length + 1 ∧
    (readIteration s v i p).data_voltage.length
        = (readIteration s v i p).data_current.length ∧
    (readIteration s v i p).data_current.length
        = (readIteration s v i p).data_power.length := by
  refine ⟨?_, ?_, ?_, ?_, ?_⟩ <;> simp [readIteration, h1, h2]

/-- C10 witness: the freshly initialized state and the sample (1, 2, 3). -/
theorem c10_iteration_appends_one_each_witness :
    (readIteration initSampler 1 2 3).data_voltage.length
        = initSampler.data_voltage.length + 1 ∧
    (readIteration initSampler 1 2 3).data_current.length
        = initSampler.data_current.length + 1 ∧
    (readIteration initSampler 1 2 3).data_power.length
        = initSampler.data_power.length + 1 ∧
    (readIteration initSampler 1 2 3).data_voltage.length
        = (readIteration initSampler 1 2 3).data_current.length ∧
    (readIteration initSampler 1 2 3).data_current.length
        = (readIteration initSampler 1 2 3).data_power.length :=
  c10_iteration_appends_one_each initSampler 1 2 3 rfl rfl
